import Mathlib

/-!
Shallow embedding of the category-selection core of the repository
(`instagram-scraper/category_selector.py`): keyword extraction, content
indicator detection, keyword/indicator scoring and the category selection
routine `select_category_for_generation`.

Python strings are modelled as `String` (operated on through `List Char`
so that everything reduces), Python floats as `ℚ` (the scores involved are
exact small rationals), Python dicts with fixed keys as structures with
`Option` fields (`none` = key absent / value `None`), and a raised Python
exception as `Except.error`.
-/

/-- The apostrophe character (code point 39). -/
def aposChar : Char := Char.ofNat 39

/-- The apostrophe as a one-character string. -/
def aposStr : String := String.mk [aposChar]

/-- `strInChars nd hay`: the Python substring test `nd in hay` on char lists. -/
def strInChars (nd : List Char) : List Char → Bool
  | [] => nd.isEmpty
  | c :: rest => nd.isPrefixOf (c :: rest) || strInChars nd rest

/-- The Python substring test `needle in hay` on strings. -/
def strIn (needle hay : String) : Bool := strInChars needle.toList hay.toList

/-- Splits a char list on whitespace, dropping empty chunks: the behaviour of
Python `str.split()` with no argument. `acc` holds the current word reversed. -/
def wordsAux : List Char → List Char → List (List Char)
  | [], acc => if acc.isEmpty then [] else [acc.reverse]
  | c :: cs, acc =>
    if c.isWhitespace then
      (if acc.isEmpty then wordsAux cs [] else acc.reverse :: wordsAux cs [])
    else wordsAux cs (c :: acc)

/-- Word characters of the regex class `\w` (ASCII model). -/
def isWordChar (c : Char) : Bool := c.isAlphanum || c == '_'

/-- Join a list of strings with a separator: Python `sep.join(parts)`. -/
def joinSep (sep : String) : List String → String
  | [] => ""
  | [s] => s
  | s :: rest => s ++ sep ++ joinSep sep rest

/-- The stop-word set of `extract_keywords` (source lines 18-23). -/
def stop_words : List String :=
  ["a", "an", "and", "are", "as", "at", "be", "by", "for",
   "from", "has", "he", "in", "is", "it", "its", "of", "on",
   "that", "the", "to", "was", "will", "with", "we", "our",
   "you", "your", "this", "these", "those", "about"]

/-- Characters kept by the substitution `re.sub(r'[^\w\s\x27-]', ' ', ...)`:
word characters, whitespace, apostrophe and hyphen; all others become a space. -/
def keepChar (c : Char) : Bool :=
  isWordChar c || c.isWhitespace || c == aposChar || c == '-'

/-- `extract_keywords` (source lines 12-34): lowercase, strip punctuation,
split on whitespace, drop tokens of length ≤ 3 and stop words. -/
def extract_keywords (text : String) : List String :=
  let text_lower := text.toList.map Char.toLower
  let text_clean := text_lower.map fun c => if keepChar c then c else ' '
  let words := (wordsAux text_clean []).map String.mk
  words.filter fun w => decide (3 < w.length) && !(stop_words.contains w)

/-- One user keyword matches the category keyword list when some category
keyword contains it or is contained in it (source line 46). -/
def keywordMatch (category_keywords : List String) (uk : String) : Bool :=
  category_keywords.any fun ck => strIn ck uk || strIn uk ck

/-- `calculate_keyword_score` (source lines 37-51): fraction of user keywords
with a bidirectional-substring match, capped at 1. -/
def calculate_keyword_score (user_keywords category_keywords : List String) : ℚ :=
  if user_keywords.isEmpty || category_keywords.isEmpty then 0
  else
    let matchCount := (user_keywords.filter (keywordMatch category_keywords)).length
    min ((matchCount : ℚ) / (user_keywords.length : ℚ)) 1

/-- Month names of the `has_date` regular expression. -/
def monthNames : List String :=
  ["january", "february", "march", "april", "may", "june", "july",
   "august", "september", "october", "november", "december"]

/-- Some month name is a prefix of the text at position `i`. -/
def monthAt (cs : List Char) (i : Nat) : Bool :=
  monthNames.any fun m => m.toList.isPrefixOf (cs.drop i)

/-- The numeric date alternative `\d{1,2}/\d{1,2}(/\d{2,4})?` matches at
position `i` (existence semantics; the optional group can match empty). -/
def numericDateAt (cs : List Char) (i : Nat) : Bool :=
  match cs.drop i with
  | d1 :: '/' :: d2 :: _ => d1.isDigit && d2.isDigit
  | d1 :: d2 :: '/' :: d3 :: _ => d1.isDigit && (d2.isDigit && d3.isDigit)
  | _ => false

/-- The regex word boundary `\b` before a word character at position `i`:
start of text, or previous character not a word character. -/
def boundaryAt (cs : List Char) (i : Nat) : Bool :=
  i == 0 || !(isWordChar (cs.getD (i - 1) ' '))

/-- The `has_date` pattern matches starting at position `i`: a word boundary
followed by a month name or a numeric date. There is no closing boundary. -/
def dateMatchAt (cs : List Char) (i : Nat) : Bool :=
  boundaryAt cs i && (monthAt cs i || numericDateAt cs i)

/-- `re.search` of the `has_date` pattern: a match starting at some position. -/
def dateSearch (cs : List Char) : Bool :=
  (List.range cs.length).any fun i => dateMatchAt cs i

/-- The lowercased character list of a text (`text.lower()`). -/
def lowerChars (text : String) : List Char := text.toList.map Char.toLower

/-- The six content indicator flags (source lines 61-68), in the insertion
order of the Python dict. -/
structure IndicatorFlags where
  has_date : Bool
  has_cta : Bool
  has_narrative : Bool
  has_educational : Bool
  has_announcement : Bool
  has_question : Bool
deriving DecidableEq

/-- The `(key, value)` items of the flags dict in insertion order. -/
def IndicatorFlags.items (f : IndicatorFlags) : List (String × Bool) :=
  [("has_date", f.has_date), ("has_cta", f.has_cta),
   ("has_narrative", f.has_narrative), ("has_educational", f.has_educational),
   ("has_announcement", f.has_announcement), ("has_question", f.has_question)]

/-- Dict lookup `user_indicators.get(key)`; unknown keys give `False`. -/
def IndicatorFlags.get (f : IndicatorFlags) (k : String) : Bool :=
  if k == "has_date" then f.has_date
  else if k == "has_cta" then f.has_cta
  else if k == "has_narrative" then f.has_narrative
  else if k == "has_educational" then f.has_educational
  else if k == "has_announcement" then f.has_announcement
  else if k == "has_question" then f.has_question
  else false

/-- Substring word lists of `detect_content_indicators` (source lines 63-66). -/
def ctaWords : List String :=
  ["apply", "join", "sign up", "register", "volunteer", "hiring", "deadline"]

/-- Narrative marker substrings. -/
def narrativeWords : List String :=
  ["story", "experience", "testimonial", "journey", "impact"]

/-- Educational marker substrings. -/
def educationalWords : List String :=
  ["learn", "how to", "tips", "guide", "tutorial", "fact"]

/-- Announcement marker substrings. -/
def announcementWords : List String :=
  ["announcing", "new", "launching", "introducing", "reminder"]

/-- `detect_content_indicators` (source lines 54-68). -/
def detect_content_indicators (text : String) : IndicatorFlags :=
  let text_lower := lowerChars text
  { has_date := dateSearch text_lower
    has_cta := ctaWords.any fun w => strInChars w.toList text_lower
    has_narrative := narrativeWords.any fun w => strInChars w.toList text_lower
    has_educational := educationalWords.any fun w => strInChars w.toList text_lower
    has_announcement := announcementWords.any fun w => strInChars w.toList text_lower
    has_question := text.toList.contains '?' }

/-- The fixed label-to-flag lookup table of `calculate_indicator_score`
(source lines 80-90). -/
def indicator_map : List (String × String) :=
  [("call to action", "has_cta"), ("deadline", "has_date"),
   ("team expansion", "has_cta"), ("past event recap", "has_narrative"),
   ("volunteer stories", "has_narrative"), ("impact showcase", "has_narrative"),
   ("event announcement", "has_announcement"), ("deadline reminder", "has_date"),
   ("date-specific info", "has_date")]

/-- Lowercase a string (`s.lower()`). -/
def lowerStr (s : String) : String := String.mk (lowerChars s)

/-- `calculate_indicator_score` (source lines 71-101): fraction of category
indicator labels whose mapped flag is set, capped at 1. -/
def calculate_indicator_score (user_indicators : IndicatorFlags)
    (category_indicators : List String) : ℚ :=
  if category_indicators.isEmpty then 0
  else
    let matchCount := (category_indicators.filter fun ci =>
      match (indicator_map.find? fun p => p.1 == lowerStr ci).map Prod.snd with
      | some k => user_indicators.get k
      | none => false).length
    min ((matchCount : ℚ) / (category_indicators.length : ℚ)) 1

/-- The per-category `selection_logic` record. -/
structure SelectionLogic where
  keywords : Option (List String)
  content_indicators : Option (List String)
deriving DecidableEq

/-- The `generation_category_selector` sub-dict; each field is `none` when
the corresponding key is absent. -/
structure SelectorData where
  available_categories : Option (List String)
  selection_logic : Option (List (String × SelectionLogic))
deriving DecidableEq

/-- A record of the `categories` list (the fields the selector reads). -/
structure Category where
  category_id : Option String
  category_name : Option String
  purpose : Option String
deriving DecidableEq

/-- The `analysis_metadata` sub-dict. -/
structure AnalysisMetadata where
  primary_category : Option String
deriving DecidableEq

/-- The `analysis_json` argument (AnalysisBundle); `none` fields model absent
keys, and the falsy/empty dict is the all-`none` record. -/
structure AnalysisJson where
  generation_category_selector : Option SelectorData
  categories : Option (List Category)
  analysis_metadata : Option AnalysisMetadata
deriving DecidableEq

/-- The returned dict of `select_category_for_generation`;
`scores_breakdown` is `(keyword_score, indicator_score, final_score)` and is
`none` on the paths that do not add the key. -/
structure SelectionResult where
  selected_category_id : Option String
  confidence_score : ℚ
  reasoning : String
  category_data : Option Category
  scores_breakdown : Option (ℚ × ℚ × ℚ)
deriving DecidableEq

/-- A scoring tuple `(category_id, final_score, keyword_score, indicator_score)`. -/
abbrev ScoreEntry := String × ℚ × ℚ × ℚ

/-- Floor of a rational, computed on the numerator and denominator. -/
def ratFloor (q : ℚ) : Int := q.num.fdiv (q.den : Int)

/-- Round to the nearest integer, ties to even: Python `round` on the exact
rational value. -/
def roundHalfEven (q : ℚ) : Int :=
  let f := ratFloor q
  let frac := q - (f : ℚ)
  if frac < 1/2 then f
  else if 1/2 < frac then f + 1
  else if f % 2 = 0 then f else f + 1

/-- Python `round(q, 2)` on the exact rational value. -/
def pyRound2 (q : ℚ) : ℚ := (roundHalfEven (100 * q) : ℚ) / 100

/-- The decimal digit character for `n < 10`. -/
def digitChar (n : Nat) : Char := Char.ofNat (48 + n)

/-- Decimal digits of `n`, with explicit fuel (first argument). -/
def natDigitsAux : Nat → Nat → List Char
  | 0, _ => []
  | fuel + 1, n =>
    if n < 10 then [digitChar n]
    else natDigitsAux fuel (n / 10) ++ [digitChar (n % 10)]

/-- Decimal representation of a natural number. -/
def natToStr (n : Nat) : String := String.mk (natDigitsAux (n + 1) n)

/-- Python `f"{q:.2f}"` for a nonnegative rational: two decimal places. -/
def formatFixed2 (q : ℚ) : String :=
  let n := (roundHalfEven (100 * q)).toNat
  natToStr (n / 100) ++ "." ++ String.mk [digitChar (n % 100 / 10), digitChar (n % 10)]

/-- Dict lookup in `selection_logic` (keys are unique in a Python dict, so
first match on an association list). -/
def lookupLogic (m : List (String × SelectionLogic)) (k : String) : Option SelectionLogic :=
  (m.find? fun p => p.1 == k).map Prod.snd

/-- `analysis_json.get('analysis_metadata', {}).get('primary_category')`. -/
def primaryId (md : Option AnalysisMetadata) : Option String :=
  md.bind AnalysisMetadata.primary_category

/-- `next((cat for cat in categories if cat.get('category_id') == wanted), None)`.
Note the comparison is between two possibly-`None` values, as in Python. -/
def findCategory (categories : List Category) (wanted : Option String) : Option Category :=
  categories.find? fun cat => cat.category_id == wanted

/-- The early return when the selector data is missing (source lines 127-133). -/
def noSelectorResult : SelectionResult :=
  { selected_category_id := none, confidence_score := 0,
    reasoning := "No category selector data available in analysis",
    category_data := none, scores_breakdown := none }

/-- The early return when `categories` is empty (source lines 138-144). -/
def noCategoriesResult : SelectionResult :=
  { selected_category_id := none, confidence_score := 0,
    reasoning := "No categories available",
    category_data := none, scores_breakdown := none }

/-- The fallback when no category could be scored (source lines 170-180). -/
def noScoresResult (categories : List Category) (md : Option AnalysisMetadata) : SelectionResult :=
  { selected_category_id := primaryId md, confidence_score := 0,
    reasoning := "No scoring data available, defaulting to primary category (most recent post)",
    category_data := findCategory categories (primaryId md), scores_breakdown := none }

/-- The fallback when the best score is below the threshold (source lines
189-199). The source puts the raw `best_score` into `confidence_score`. -/
def lowConfidenceResult (categories : List Category) (md : Option AnalysisMetadata)
    (best_score : ℚ) : SelectionResult :=
  { selected_category_id := primaryId md, confidence_score := best_score,
    reasoning := "Low confidence match (score: " ++ formatFixed2 best_score ++
      "). Defaulting to primary category (most recent post)",
    category_data := findCategory categories (primaryId md), scores_breakdown := none }

/-- One iteration of the scoring loop (source lines 153-168). The subscript
`selector_data['selection_logic']` is evaluated inside the loop body, so a
missing key raises only when the loop runs. -/
def scoreStep (user_keywords : List String) (user_indicators : IndicatorFlags)
    (sd : SelectorData) (acc : Except String (List ScoreEntry)) (category_id : String) :
    Except String (List ScoreEntry) :=
  match acc with
  | Except.error e => Except.error e
  | Except.ok scores =>
    match sd.selection_logic with
    | none => Except.error "KeyError: selection_logic"
    | some logicMap =>
      match lookupLogic logicMap category_id with
      | none => Except.ok scores
      | some logic =>
        let category_keywords := logic.keywords.getD []
        let category_indicators := logic.content_indicators.getD []
        let keyword_score := calculate_keyword_score user_keywords category_keywords
        let indicator_score := calculate_indicator_score user_indicators category_indicators
        let final_score := (3/5 : ℚ) * keyword_score + (2/5 : ℚ) * indicator_score
        Except.ok (scores ++ [(category_id, final_score, keyword_score, indicator_score)])

/-- The scoring pass over `selector_data['available_categories']` (source
lines 150-168); the subscript raises `KeyError` when the key is missing. -/
def scorePass (user_keywords : List String) (user_indicators : IndicatorFlags)
    (sd : SelectorData) : Except String (List ScoreEntry) :=
  match sd.available_categories with
  | none => Except.error "KeyError: available_categories"
  | some avail => avail.foldl (scoreStep user_keywords user_indicators sd) (Except.ok [])

/-- `category_scores.sort(key=lambda x: x[1], reverse=True)`: a stable sort,
descending on `final_score`; earlier entries stay first among equal scores. -/
def sortScoresDesc (l : List ScoreEntry) : List ScoreEntry :=
  l.insertionSort fun a b => b.2.1 ≤ a.2.1

/-- The confident-match branch (source lines 201-229). When no record in
`categories` carries the winning id, `selected_cat` is `None` and the source
crashes at `selected_cat.get('category_name', 'unknown')` (line 216). -/
def confidentMatchResult (user_keywords : List String) (user_indicators : IndicatorFlags)
    (sd : SelectorData) (categories : List Category) (best : ScoreEntry) :
    Except String SelectionResult :=
  let best_id := best.1
  let best_score := best.2.1
  let best_kw_score := best.2.2.1
  let best_ind_score := best.2.2.2
  let selected_cat := findCategory categories (some best_id)
  match sd.selection_logic with
  | none => Except.error "KeyError: selection_logic"
  | some logicMap =>
    match lookupLogic logicMap best_id with
    | none => Except.error "KeyError: winning category id"
    | some logic =>
      let matched_keywords := user_keywords.filter (keywordMatch (logic.keywords.getD []))
      let parts0 : List String :=
        if matched_keywords.isEmpty then []
        else ["Detected keywords: " ++ joinSep ", " (matched_keywords.take 5)]
      let parts1 : List String :=
        if 0 < best_ind_score then
          (let active_indicators := (user_indicators.items.filter Prod.snd).map Prod.fst
           if active_indicators.isEmpty then []
           else ["Content indicators: " ++ joinSep ", " (active_indicators.take 3)])
        else []
      match selected_cat with
      | none => Except.error "AttributeError: NoneType object has no attribute get"
      | some cat =>
        let reasoning_parts := parts0 ++ parts1 ++
          ["High match with " ++ aposStr ++ cat.category_name.getD "unknown" ++ aposStr ++ " category"]
        Except.ok
          { selected_category_id := some best_id,
            confidence_score := pyRound2 best_score,
            reasoning := joinSep ". " reasoning_parts ++ ".",
            category_data := some cat,
            scores_breakdown := some (pyRound2 best_kw_score, pyRound2 best_ind_score, pyRound2 best_score) }

/-- Threshold test and dispatch on the best entry (source lines 186-229). -/
def selectFromBest (user_keywords : List String) (user_indicators : IndicatorFlags)
    (sd : SelectorData) (categories : List Category) (md : Option AnalysisMetadata)
    (best : ScoreEntry) : Except String SelectionResult :=
  if best.2.1 < (3/10 : ℚ) then Except.ok (lowConfidenceResult categories md best.2.1)
  else confidentMatchResult user_keywords user_indicators sd categories best

/-- `select_category_for_generation` (source lines 104-229). -/
def select_category_for_generation (user_text : String) (analysis_json : AnalysisJson) :
    Except String SelectionResult :=
  match analysis_json.generation_category_selector with
  | none => Except.ok noSelectorResult
  | some selector_data =>
    let categories := analysis_json.categories.getD []
    if categories.isEmpty then Except.ok noCategoriesResult
    else
      let user_keywords := extract_keywords user_text
      let user_indicators := detect_content_indicators user_text
      match scorePass user_keywords user_indicators selector_data with
      | Except.error e => Except.error e
      | Except.ok category_scores =>
        match sortScoresDesc category_scores with
        | [] => Except.ok (noScoresResult categories analysis_json.analysis_metadata)
        | best :: _ =>
          selectFromBest user_keywords user_indicators selector_data categories
            analysis_json.analysis_metadata best

deriving instance DecidableEq for Except

/-- State-threaded translation of one scoring-loop iteration: the pair
carries the bundle alongside the accumulator; no statement of the loop
writes to the bundle, so every branch returns the state it received. -/
def scoreStepSt (user_keywords : List String) (user_indicators : IndicatorFlags)
    (sd : SelectorData) (st : Except String (List ScoreEntry) × AnalysisJson)
    (category_id : String) : Except String (List ScoreEntry) × AnalysisJson :=
  match st with
  | (Except.error e, s) => (Except.error e, s)
  | (Except.ok scores, s) =>
    match sd.selection_logic with
    | none => (Except.error "KeyError: selection_logic", s)
    | some logicMap =>
      match lookupLogic logicMap category_id with
      | none => (Except.ok scores, s)
      | some logic =>
        let category_keywords := logic.keywords.getD []
        let category_indicators := logic.content_indicators.getD []
        let keyword_score := calculate_keyword_score user_keywords category_keywords
        let indicator_score := calculate_indicator_score user_indicators category_indicators
        let final_score := (3/5 : ℚ) * keyword_score + (2/5 : ℚ) * indicator_score
        (Except.ok (scores ++ [(category_id, final_score, keyword_score, indicator_score)]), s)

/-- State-threaded translation of the scoring pass. -/
def scorePassSt (user_keywords : List String) (user_indicators : IndicatorFlags)
    (sd : SelectorData) (s : AnalysisJson) :
    Except String (List ScoreEntry) × AnalysisJson :=
  match sd.available_categories with
  | none => (Except.error "KeyError: available_categories", s)
  | some avail => avail.foldl (scoreStepSt user_keywords user_indicators sd) (Except.ok [], s)

/-- State-threaded translation of `select_category_for_generation`: the
second component is the bundle after the call. Every access the source makes
to `analysis_json` is a read, so the translation only ever passes the state
along. -/
def selectSt (user_text : String) (s : AnalysisJson) :
    Except String SelectionResult × AnalysisJson :=
  match s.generation_category_selector with
  | none => (Except.ok noSelectorResult, s)
  | some selector_data =>
    let categories := s.categories.getD []
    if categories.isEmpty then (Except.ok noCategoriesResult, s)
    else
      let user_keywords := extract_keywords user_text
      let user_indicators := detect_content_indicators user_text
      match scorePassSt user_keywords user_indicators selector_data s with
      | (Except.error e, s2) => (Except.error e, s2)
      | (Except.ok category_scores, s2) =>
        match sortScoresDesc category_scores with
        | [] => (Except.ok (noScoresResult categories s2.analysis_metadata), s2)
        | best :: _ =>
          (selectFromBest user_keywords user_indicators selector_data categories
            s2.analysis_metadata best, s2)

/-- A valid bundle on which the winning id has no record in `categories`:
the single available category scores `0.6 * (1/2) = 0.3 ≥ 0.3`, so the
confident-match branch runs and dereferences a `None` lookup result. -/
def sdUnmatched : SelectorData :=
  { available_categories := some ["hiring_post"]
    selection_logic := some [("hiring_post",
      { keywords := some ["hiring"], content_indicators := some [] })] }

/-- Bundle for the `C1` failing input. -/
def ajUnmatched : AnalysisJson :=
  { generation_category_selector := some sdUnmatched
    categories := some [{ category_id := some "other_cat", category_name := some "Other", purpose := some "Miscellaneous posts" }]
    analysis_metadata := some { primary_category := some "other_cat" } }

/-- Bundle for the `C2` failing input: the narrative category scores
`0.6 * (2/3) + 0.4 * 1 = 0.8`, and no record carries its id. -/
def sdNarrative : SelectorData :=
  { available_categories := some ["narrative_post"]
    selection_logic := some [("narrative_post",
      { keywords := some ["story", "experience"], content_indicators := some ["past event recap"] })] }

/-- Bundle for the `C2` failing input. -/
def ajNarrative : AnalysisJson :=
  { generation_category_selector := some sdNarrative
    categories := some [{ category_id := some "different_cat", category_name := some "Different", purpose := some "Miscellaneous posts" }]
    analysis_metadata := some { primary_category := some "different_cat" } }

/-- A bundle whose `generation_category_selector` is present but lacks both
the `available_categories` and the `selection_logic` keys. -/
def ajMissingKeys : AnalysisJson :=
  { generation_category_selector := some { available_categories := none, selection_logic := none }
    categories := some [{ category_id := some "cat_a", category_name := some "A", purpose := none }]
    analysis_metadata := none }

/-- A bundle with the same empty selector sub-dict but an absent `categories`
key: the no-categories early return fires before the missing selector keys
are ever subscripted. -/
def ajSelectorOnly : AnalysisJson :=
  { generation_category_selector := some { available_categories := none, selection_logic := none }
    categories := none
    analysis_metadata := none }

/-- Selector data for the exact-threshold input: one category scoring
exactly `3/10`. -/
def sdThreshold : SelectorData :=
  { available_categories := some ["hiring_post"]
    selection_logic := some [("hiring_post",
      { keywords := some ["hiring"], content_indicators := some [] })] }

/-- Bundle for the exact-threshold input; here `categories` does carry the
winning id. -/
def ajThreshold : AnalysisJson :=
  { generation_category_selector := some sdThreshold
    categories := some [{ category_id := some "hiring_post", category_name := some "Hiring", purpose := none }]
    analysis_metadata := some { primary_category := some "hiring_post" } }

/-- Bundle for the low-confidence input: seven user keywords, one match,
so the top score is `0.6 * (1/7) = 3/35 < 3/10`. -/
def ajLowScore : AnalysisJson :=
  { generation_category_selector := some sdThreshold
    categories := some [{ category_id := some "prim_cat", category_name := some "Primary", purpose := none }]
    analysis_metadata := some { primary_category := some "prim_cat" } }

/-- Selector data with two categories carrying identical keyword logic, so
both receive exactly the same score. -/
def sdTie : SelectorData :=
  { available_categories := some ["first_post", "second_post"]
    selection_logic := some
      [("first_post", { keywords := some ["hiring"], content_indicators := some [] }),
       ("second_post", { keywords := some ["hiring"], content_indicators := some [] })] }

/-- Bundle for the tie input. -/
def ajTie : AnalysisJson :=
  { generation_category_selector := some sdTie
    categories := some
      [{ category_id := some "first_post", category_name := some "First", purpose := none },
       { category_id := some "second_post", category_name := some "Second", purpose := none }]
    analysis_metadata := some { primary_category := some "first_post" } }

theorem scoreStepSt_eq (uk : List String) (ui : IndicatorFlags) (sd : SelectorData)
    (acc : Except String (List ScoreEntry)) (s : AnalysisJson) (cid : String) :
    scoreStepSt uk ui sd (acc, s) cid = (scoreStep uk ui sd acc cid, s) := by
  cases acc with
  | error e => rfl
  | ok scores =>
    cases hm : sd.selection_logic with
    | none => simp [scoreStepSt, scoreStep, hm]
    | some logicMap =>
      cases hl : lookupLogic logicMap cid with
      | none => simp [scoreStepSt, scoreStep, hm, hl]
      | some logic => simp [scoreStepSt, scoreStep, hm, hl]

theorem foldl_scoreStepSt_eq (uk : List String) (ui : IndicatorFlags) (sd : SelectorData)
    (l : List String) :
    ∀ (acc : Except String (List ScoreEntry)) (s : AnalysisJson),
      l.foldl (scoreStepSt uk ui sd) (acc, s) = (l.foldl (scoreStep uk ui sd) acc, s) := by
  induction l with
  | nil => intro acc s; rfl
  | cons a l ih =>
    intro acc s
    rw [List.foldl_cons, List.foldl_cons, scoreStepSt_eq]
    exact ih _ _

theorem scorePassSt_eq (uk : List String) (ui : IndicatorFlags) (sd : SelectorData)
    (s : AnalysisJson) :
    scorePassSt uk ui sd s = (scorePass uk ui sd, s) := by
  cases h : sd.available_categories with
  | none => simp [scorePassSt, scorePass, h]
  | some avail => simp [scorePassSt, scorePass, h, foldl_scoreStepSt_eq]

theorem foldl_scoreStep_error (uk : List String) (ui : IndicatorFlags) (sd : SelectorData)
    (e : String) (l : List String) :
    l.foldl (scoreStep uk ui sd) (Except.error e) = Except.error e := by
  induction l with
  | nil => rfl
  | cons a l ih => rw [List.foldl_cons]; exact ih

theorem orderedInsert_max (x : ScoreEntry) (l : List ScoreEntry)
    (h : ∀ y ∈ l, y.2.1 ≤ x.2.1) :
    List.orderedInsert (fun a b => b.2.1 ≤ a.2.1) x l = x :: l := by
  cases l with
  | nil => rfl
  | cons y t =>
    rw [List.orderedInsert, if_pos (h y (List.mem_cons_self y t))]

theorem insertionSortDesc_head (l : List ScoreEntry) (e : ScoreEntry)
    (hub : ∀ x ∈ l, x.2.1 ≤ e.2.1)
    (hf : l.find? (fun x => decide (e.2.1 ≤ x.2.1)) = some e) :
    ∃ t, List.insertionSort (fun a b => b.2.1 ≤ a.2.1) l = e :: t := by
  induction l with
  | nil => simp at hf
  | cons a l ih =>
    by_cases ha : e.2.1 ≤ a.2.1
    · rw [List.find?_cons_of_pos _ (by simpa using ha)] at hf
      obtain rfl : a = e := Option.some.inj hf
      refine ⟨List.insertionSort (fun a b => b.2.1 ≤ a.2.1) l, ?_⟩
      rw [List.insertionSort]
      apply orderedInsert_max
      intro y hy
      exact hub y (List.mem_cons_of_mem _ ((List.perm_insertionSort _ l).mem_iff.mp hy))
    · rw [List.find?_cons_of_neg _ (by simpa using ha)] at hf
      have hub2 : ∀ x ∈ l, x.2.1 ≤ e.2.1 := fun x hx => hub x (List.mem_cons_of_mem _ hx)
      obtain ⟨t, ht⟩ := ih hub2 hf
      refine ⟨List.orderedInsert (fun a b => b.2.1 ≤ a.2.1) a t, ?_⟩
      rw [List.insertionSort, ht, List.orderedInsert, if_neg ha]

theorem sortScoresDesc_head (l : List ScoreEntry) (e : ScoreEntry)
    (hub : ∀ x ∈ l, x.2.1 ≤ e.2.1)
    (hf : l.find? (fun x => decide (e.2.1 ≤ x.2.1)) = some e) :
    ∃ t, sortScoresDesc l = e :: t :=
  insertionSortDesc_head l e hub hf

theorem select_eq_selectFromBest (txt : String) (aj : AnalysisJson) (sd : SelectorData)
    (scores : List ScoreEntry) (e : ScoreEntry) (rest : List ScoreEntry)
    (h1 : aj.generation_category_selector = some sd)
    (h2 : (aj.categories.getD []).isEmpty = false)
    (h3 : scorePass (extract_keywords txt) (detect_content_indicators txt) sd = Except.ok scores)
    (h4 : sortScoresDesc scores = e :: rest) :
    select_category_for_generation txt aj =
      selectFromBest (extract_keywords txt) (detect_content_indicators txt) sd
        (aj.categories.getD []) aj.analysis_metadata e := by
  unfold select_category_for_generation
  rw [h1]
  dsimp only
  rw [if_neg (by rw [h2]; exact Bool.false_ne_true)]
  rw [h3]
  dsimp only
  rw [h4]

theorem confidentMatchResult_ok_id (uk : List String) (ui : IndicatorFlags) (sd : SelectorData)
    (cats : List Category) (best : ScoreEntry) (r : SelectionResult)
    (h : confidentMatchResult uk ui sd cats best = Except.ok r) :
    r.selected_category_id = some best.1 := by
  unfold confidentMatchResult at h
  cases hm : sd.selection_logic with
  | none => rw [hm] at h; exact absurd h (by simp)
  | some logicMap =>
    rw [hm] at h
    dsimp only at h
    cases hl : lookupLogic logicMap best.1 with
    | none => rw [hl] at h; exact absurd h (by simp)
    | some logic =>
      rw [hl] at h
      dsimp only at h
      cases hc : findCategory cats (some best.1) with
      | none => rw [hc] at h; exact absurd h (by simp)
      | some cat =>
        rw [hc] at h
        dsimp only at h
        obtain rfl := Except.ok.inj h
        rfl

/-- Claim C1 (code bug evidence): on a valid bundle whose winning category id
("hiring_post", final score exactly 3/10) has no record in `categories`, the
function raises (AttributeError on `None.get`) instead of returning. -/
theorem C1_crash_on_valid_bundle_without_matching_record :
    select_category_for_generation "hiring volunteer" ajUnmatched =
      Except.error "AttributeError: NoneType object has no attribute get" := by
  with_unfolding_all decide

/-- Claim C2 (code bug evidence): the confident-match branch is taken (final
score 4/5 ≥ 3/10) and no record matches the winning id, and the function
raises instead of returning `category_data = none`. -/
theorem C2_confident_branch_crashes_when_record_missing :
    select_category_for_generation "story experience journey" ajNarrative =
      Except.error "AttributeError: NoneType object has no attribute get" := by
  with_unfolding_all decide

/-- Claim C3 counterexample: `generation_category_selector` is present but
lacks `available_categories`; the call raises KeyError instead of defaulting. -/
theorem C3_counterexample_missing_keys_raise :
    (ajMissingKeys.generation_category_selector).isSome = true ∧
    select_category_for_generation "hello" ajMissingKeys =
      Except.error "KeyError: available_categories" := by
  constructor
  · rfl
  · with_unfolding_all decide

/-- Claim C3 amended: with `generation_category_selector` present, the
behaviour on a missing `available_categories` or `selection_logic` key
depends on `categories`. With an empty or absent `categories` list the
no-categories result is returned before either key is subscripted, so
nothing raises; with a non-empty `categories` list a missing
`available_categories` key raises KeyError, as does a missing
`selection_logic` key once the loop body runs (non-empty id list). -/
theorem C3_missing_selector_keys_raise (txt : String) (aj : AnalysisJson) (sd : SelectorData)
    (h1 : aj.generation_category_selector = some sd) :
    ((aj.categories.getD []).isEmpty = true →
      select_category_for_generation txt aj = Except.ok noCategoriesResult) ∧
    ((aj.categories.getD []).isEmpty = false → sd.available_categories = none →
      select_category_for_generation txt aj = Except.error "KeyError: available_categories") ∧
    ((aj.categories.getD []).isEmpty = false →
      ∀ ids, sd.available_categories = some ids → ids ≠ [] → sd.selection_logic = none →
      select_category_for_generation txt aj = Except.error "KeyError: selection_logic") := by
  have base : (aj.categories.getD []).isEmpty = false →
      select_category_for_generation txt aj =
      (match scorePass (extract_keywords txt) (detect_content_indicators txt) sd with
       | Except.error e => Except.error e
       | Except.ok category_scores =>
         match sortScoresDesc category_scores with
         | [] => Except.ok (noScoresResult (aj.categories.getD []) aj.analysis_metadata)
         | best :: _ =>
           selectFromBest (extract_keywords txt) (detect_content_indicators txt) sd
             (aj.categories.getD []) aj.analysis_metadata best) := by
    intro h2
    unfold select_category_for_generation
    rw [h1]
    dsimp only
    rw [if_neg (by rw [h2]; exact Bool.false_ne_true)]
  refine ⟨?_, ?_, ?_⟩
  · intro hc
    unfold select_category_for_generation
    rw [h1]
    dsimp only
    rw [if_pos hc]
  · intro h2 hav
    rw [base h2]
    have hp : scorePass (extract_keywords txt) (detect_content_indicators txt) sd =
        Except.error "KeyError: available_categories" := by
      unfold scorePass; rw [hav]
    rw [hp]
  · intro h2 ids hav hne hsl
    rw [base h2]
    have hp : scorePass (extract_keywords txt) (detect_content_indicators txt) sd =
        Except.error "KeyError: selection_logic" := by
      unfold scorePass
      rw [hav]
      dsimp only
      cases ids with
      | nil => exact absurd rfl hne
      | cons a rest =>
        rw [List.foldl_cons]
        have hstep : scoreStep (extract_keywords txt) (detect_content_indicators txt) sd
            (Except.ok []) a = Except.error "KeyError: selection_logic" := by
          unfold scoreStep
          dsimp only
          rw [hsl]
        rw [hstep, foldl_scoreStep_error]
    rw [hp]

/-- Claim C3 witness for the amended theorem: at `ajMissingKeys` (non-empty
`categories`) the missing `available_categories` key raises KeyError, and at
`ajSelectorOnly` (absent `categories`) the no-categories result is returned
without raising. -/
theorem C3_missing_selector_keys_raise_witness :
    (ajMissingKeys.generation_category_selector = some { available_categories := none, selection_logic := none } ∧
     (ajMissingKeys.categories.getD []).isEmpty = false ∧
     ajSelectorOnly.generation_category_selector = some { available_categories := none, selection_logic := none } ∧
     (ajSelectorOnly.categories.getD []).isEmpty = true) ∧
    select_category_for_generation "hello" ajMissingKeys =
      Except.error "KeyError: available_categories" ∧
    select_category_for_generation "hello" ajSelectorOnly = Except.ok noCategoriesResult :=
  ⟨⟨rfl, rfl, rfl, rfl⟩,
   (C3_missing_selector_keys_raise "hello" ajMissingKeys
     { available_categories := none, selection_logic := none } rfl).2.1 rfl rfl,
   (C3_missing_selector_keys_raise "hello" ajSelectorOnly
     { available_categories := none, selection_logic := none } rfl).1 rfl⟩

/-- Claim C4: when the scoring pass produced entries and the sorted list has
top entry `e`, a top score of exactly 3/10 runs the confident-match branch;
the low-confidence fallback runs precisely for top scores strictly below
3/10; and whenever the confident branch returns a result, its
`selected_category_id` is the winning id. -/
theorem C4_threshold_is_strict (txt : String) (aj : AnalysisJson) (sd : SelectorData)
    (scores : List ScoreEntry) (e : ScoreEntry) (rest : List ScoreEntry)
    (h1 : aj.generation_category_selector = some sd)
    (h2 : (aj.categories.getD []).isEmpty = false)
    (h3 : scorePass (extract_keywords txt) (detect_content_indicators txt) sd = Except.ok scores)
    (h4 : sortScoresDesc scores = e :: rest) :
    (e.2.1 = 3/10 →
      select_category_for_generation txt aj =
        confidentMatchResult (extract_keywords txt) (detect_content_indicators txt) sd
          (aj.categories.getD []) e) ∧
    (e.2.1 < 3/10 →
      select_category_for_generation txt aj =
        Except.ok (lowConfidenceResult (aj.categories.getD []) aj.analysis_metadata e.2.1)) ∧
    ((3/10 : ℚ) ≤ e.2.1 →
      select_category_for_generation txt aj =
        confidentMatchResult (extract_keywords txt) (detect_content_indicators txt) sd
          (aj.categories.getD []) e) ∧
    (∀ r, confidentMatchResult (extract_keywords txt) (detect_content_indicators txt) sd
        (aj.categories.getD []) e = Except.ok r → r.selected_category_id = some e.1) := by
  have hsel := select_eq_selectFromBest txt aj sd scores e rest h1 h2 h3 h4
  refine ⟨?_, ?_, ?_, ?_⟩
  · intro he
    rw [hsel]
    unfold selectFromBest
    rw [if_neg (by rw [he]; exact lt_irrefl _)]
  · intro hlt
    rw [hsel]
    unfold selectFromBest
    rw [if_pos hlt]
  · intro hge
    rw [hsel]
    unfold selectFromBest
    rw [if_neg (not_lt.mpr hge)]
  · intro r hr
    exact confidentMatchResult_ok_id _ _ _ _ _ _ hr

/-- Claim C4 witness: the concrete bundle `ajThreshold` scores exactly 3/10
and the confident branch runs. -/
theorem C4_threshold_is_strict_witness :
    (scorePass (extract_keywords "hiring volunteer") (detect_content_indicators "hiring volunteer")
        sdThreshold = Except.ok [("hiring_post", 3/10, 1/2, 0)] ∧
     sortScoresDesc [("hiring_post", 3/10, 1/2, 0)] = [(("hiring_post", 3/10, 1/2, 0) : ScoreEntry)] ∧
     ((("hiring_post", 3/10, 1/2, 0) : ScoreEntry)).2.1 = 3/10) ∧
    select_category_for_generation "hiring volunteer" ajThreshold =
      confidentMatchResult (extract_keywords "hiring volunteer")
        (detect_content_indicators "hiring volunteer") sdThreshold
        (ajThreshold.categories.getD []) ("hiring_post", 3/10, 1/2, 0) :=
  ⟨⟨by with_unfolding_all decide, by with_unfolding_all decide, rfl⟩,
   (C4_threshold_is_strict "hiring volunteer" ajThreshold sdThreshold
      [("hiring_post", 3/10, 1/2, 0)] ("hiring_post", 3/10, 1/2, 0) [] rfl rfl
      (by with_unfolding_all decide) (by with_unfolding_all decide)).1 rfl⟩

/-- Claim C5 counterexample: on the low-confidence path the returned
`confidence_score` is the raw top score 3/35, which differs from its
two-decimal rounding 9/100, so the "rounded to 2 decimal places" part of the
claim is false. -/
theorem C5_counterexample_confidence_not_rounded :
    ((select_category_for_generation "alpha bravo charlie delta echo foxtrot hiring" ajLowScore).map
        SelectionResult.confidence_score = Except.ok (3/35)) ∧
    pyRound2 (3/35) ≠ (3/35 : ℚ) := by
  constructor
  · with_unfolding_all decide
  · with_unfolding_all decide

/-- Claim C5 amended: on the low-confidence path the result carries the
primary category id (null when absent), the matching record or null, the
reasoning citing the score formatted to two decimals, and the raw
(unrounded) top final score as `confidence_score`. -/
theorem C5_low_confidence_result_fields (txt : String) (aj : AnalysisJson) (sd : SelectorData)
    (scores : List ScoreEntry) (e : ScoreEntry) (rest : List ScoreEntry)
    (h1 : aj.generation_category_selector = some sd)
    (h2 : (aj.categories.getD []).isEmpty = false)
    (h3 : scorePass (extract_keywords txt) (detect_content_indicators txt) sd = Except.ok scores)
    (h4 : sortScoresDesc scores = e :: rest)
    (h5 : e.2.1 < 3/10) :
    select_category_for_generation txt aj = Except.ok
      { selected_category_id := primaryId aj.analysis_metadata
        confidence_score := e.2.1
        reasoning := "Low confidence match (score: " ++ formatFixed2 e.2.1 ++
          "). Defaulting to primary category (most recent post)"
        category_data := findCategory (aj.categories.getD []) (primaryId aj.analysis_metadata)
        scores_breakdown := none } := by
  rw [select_eq_selectFromBest txt aj sd scores e rest h1 h2 h3 h4]
  unfold selectFromBest
  rw [if_pos h5]
  rfl

/-- Claim C5 witness for the amended theorem at the concrete low-confidence
input (top score 3/35). -/
theorem C5_low_confidence_result_fields_witness :
    (scorePass (extract_keywords "alpha bravo charlie delta echo foxtrot hiring")
        (detect_content_indicators "alpha bravo charlie delta echo foxtrot hiring") sdThreshold =
        Except.ok [("hiring_post", 3/35, 1/7, 0)] ∧
     sortScoresDesc [("hiring_post", 3/35, 1/7, 0)] = [(("hiring_post", 3/35, 1/7, 0) : ScoreEntry)] ∧
     ((("hiring_post", 3/35, 1/7, 0) : ScoreEntry)).2.1 < 3/10) ∧
    select_category_for_generation "alpha bravo charlie delta echo foxtrot hiring" ajLowScore =
      Except.ok
        { selected_category_id := primaryId ajLowScore.analysis_metadata
          confidence_score := (("hiring_post", 3/35, 1/7, 0) : ScoreEntry).2.1
          reasoning := "Low confidence match (score: " ++
            formatFixed2 ((("hiring_post", 3/35, 1/7, 0) : ScoreEntry)).2.1 ++
            "). Defaulting to primary category (most recent post)"
          category_data := findCategory (ajLowScore.categories.getD [])
            (primaryId ajLowScore.analysis_metadata)
          scores_breakdown := none } :=
  ⟨⟨by with_unfolding_all decide, by with_unfolding_all decide, by with_unfolding_all decide⟩,
   C5_low_confidence_result_fields "alpha bravo charlie delta echo foxtrot hiring" ajLowScore
     sdThreshold [("hiring_post", 3/35, 1/7, 0)] ("hiring_post", 3/35, 1/7, 0) [] rfl rfl
     (by with_unfolding_all decide) (by with_unfolding_all decide) (by with_unfolding_all decide)⟩

/-- Claim C6: when `e` is the first entry of the scoring pass attaining the
maximal final score (in the iteration order of `available_categories`), the
selection proceeds with `e` as the best match; in particular among tied
maximal scores the first-seen category wins, the sort being stable. -/
theorem C6_tie_first_seen_wins (txt : String) (aj : AnalysisJson) (sd : SelectorData)
    (scores : List ScoreEntry) (e : ScoreEntry)
    (h1 : aj.generation_category_selector = some sd)
    (h2 : (aj.categories.getD []).isEmpty = false)
    (h3 : scorePass (extract_keywords txt) (detect_content_indicators txt) sd = Except.ok scores)
    (h4 : ∀ x ∈ scores, x.2.1 ≤ e.2.1)
    (h5 : scores.find? (fun x => decide (e.2.1 ≤ x.2.1)) = some e)
    (h6 : 2 ≤ (scores.filter (fun x => decide (x.2.1 = e.2.1))).length) :
    select_category_for_generation txt aj =
      selectFromBest (extract_keywords txt) (detect_content_indicators txt) sd
        (aj.categories.getD []) aj.analysis_metadata e := by
  obtain ⟨t, ht⟩ := sortScoresDesc_head scores e h4 h5
  exact select_eq_selectFromBest txt aj sd scores e t h1 h2 h3 ht

/-- Claim C6 witness: two categories tie at score 3/10; the first-listed one
is selected. -/
theorem C6_tie_first_seen_wins_witness :
    (scorePass (extract_keywords "hiring volunteer") (detect_content_indicators "hiring volunteer")
        sdTie = Except.ok [("first_post", 3/10, 1/2, 0), ("second_post", 3/10, 1/2, 0)] ∧
     (∀ x ∈ ([("first_post", 3/10, 1/2, 0), ("second_post", 3/10, 1/2, 0)] : List ScoreEntry),
        x.2.1 ≤ ((("first_post", 3/10, 1/2, 0) : ScoreEntry)).2.1) ∧
     ([("first_post", 3/10, 1/2, 0), ("second_post", 3/10, 1/2, 0)] : List ScoreEntry).find?
        (fun x => decide (((("first_post", 3/10, 1/2, 0) : ScoreEntry)).2.1 ≤ x.2.1)) =
        some ("first_post", 3/10, 1/2, 0) ∧
     2 ≤ (([("first_post", 3/10, 1/2, 0), ("second_post", 3/10, 1/2, 0)] : List ScoreEntry).filter
        (fun x => decide (x.2.1 = ((("first_post", 3/10, 1/2, 0) : ScoreEntry)).2.1))).length) ∧
    select_category_for_generation "hiring volunteer" ajTie =
      selectFromBest (extract_keywords "hiring volunteer")
        (detect_content_indicators "hiring volunteer") sdTie
        (ajTie.categories.getD []) ajTie.analysis_metadata ("first_post", 3/10, 1/2, 0) :=
  ⟨⟨by with_unfolding_all decide, by with_unfolding_all decide,
    by with_unfolding_all decide, by with_unfolding_all decide⟩,
   C6_tie_first_seen_wins "hiring volunteer" ajTie sdTie
     [("first_post", 3/10, 1/2, 0), ("second_post", 3/10, 1/2, 0)] ("first_post", 3/10, 1/2, 0)
     rfl rfl (by with_unfolding_all decide) (by with_unfolding_all decide)
     (by with_unfolding_all decide) (by with_unfolding_all decide)⟩

/-- Claim C7 counterexample: removing the duplicate user keyword changes the
score from 2/3 to 1/2, because the score normalizes by the full (with
multiplicity) user keyword count. -/
theorem C7_counterexample_dedup_changes_score :
    List.dedup ["aa", "aa", "bb"] = ["aa", "bb"] ∧
    calculate_keyword_score ["aa", "aa", "bb"] ["aa"] ≠
      calculate_keyword_score ["aa", "bb"] ["aa"] := by
  constructor
  · decide
  · with_unfolding_all decide

/-- Claim C7 amended: whether each single keyword matches is membership
based, so uniformly duplicating the whole user keyword list leaves the score
unchanged; removing individual duplicate entries, however, changes the
normalizing denominator and hence, in general, the score. -/
theorem C7_uniform_duplication_invariant (u c : List String) :
    calculate_keyword_score (u ++ u) c = calculate_keyword_score u c := by
  by_cases hu : u = []
  · subst hu; rfl
  · by_cases hc : c = []
    · subst hc
      unfold calculate_keyword_score
      rw [if_pos (by simp), if_pos (by simp)]
    · have hA : ¬(((u ++ u).isEmpty || c.isEmpty) = true) := by
        simp [hu, hc]
      have hB : ¬((u.isEmpty || c.isEmpty) = true) := by
        simp [hu, hc]
      unfold calculate_keyword_score
      rw [if_neg hA, if_neg hB]
      dsimp only
      rw [List.filter_append, List.length_append, List.length_append]
      congr 1
      push_cast
      rw [show (((u.filter (keywordMatch c)).length : ℚ) + (u.filter (keywordMatch c)).length) =
            2 * (u.filter (keywordMatch c)).length by ring,
          show ((u.length : ℚ) + u.length) = 2 * u.length by ring]
      exact mul_div_mul_left _ _ two_ne_zero

/-- Claim C8: `extract_keywords` on the empty string gives the empty list,
and on "We are hiring a volunteer coordinator" gives exactly the lowercased
non-stop-word tokens longer than 3 characters, in order. -/
theorem C8_extract_keywords_examples :
    extract_keywords "" = [] ∧
    extract_keywords "We are hiring a volunteer coordinator" =
      ["hiring", "volunteer", "coordinator"] := by
  constructor
  · decide
  · decide

/-- Claim C9: the state-threaded translation of the function returns the
bundle unchanged and computes the same result as the pure function: the call
does not mutate `analysis_json` and keeps no state between calls. -/
theorem C9_select_does_not_mutate_bundle (txt : String) (aj : AnalysisJson) :
    selectSt txt aj = (select_category_for_generation txt aj, aj) := by
  unfold selectSt select_category_for_generation
  cases hg : aj.generation_category_selector with
  | none => rfl
  | some sd =>
    simp only [scorePassSt_eq]
    cases hc : (aj.categories.getD []).isEmpty with
    | true => simp
    | false =>
      simp only [Bool.false_eq_true, if_false]
      cases hs : scorePass (extract_keywords txt) (detect_content_indicators txt) sd with
      | error e => rfl
      | ok scores =>
        dsimp only
        cases hsort : sortScoresDesc scores with
        | nil => rfl
        | cons best rest => rfl

/-- Claim C10: the `has_date` pattern has an opening word boundary but no
closing one, so whenever a month name occurs at the start of a word of the
lowercased text - also as a proper prefix of a longer word such as "mayor" -
`detect_content_indicators` reports `has_date = true`. -/
theorem C10_month_prefix_sets_has_date (text : String) (i : Nat)
    (hb : boundaryAt (lowerChars text) i = true)
    (hm : monthAt (lowerChars text) i = true) :
    (detect_content_indicators text).has_date = true := by
  have hmonths : ∀ m ∈ monthNames, m.toList ≠ [] := by decide
  obtain ⟨m, hmem, hpref⟩ := List.any_eq_true.mp hm
  have hdrop : (lowerChars text).drop i ≠ [] := by
    intro h0
    rw [h0] at hpref
    have hp := List.isPrefixOf_iff_prefix.mp hpref
    exact hmonths m hmem (List.prefix_nil.mp hp)
  have hi : i < (lowerChars text).length := by
    rcases Nat.lt_or_ge i (lowerChars text).length with h | h
    · exact h
    · exact absurd (List.drop_eq_nil_of_le h) hdrop
  show dateSearch (lowerChars text) = true
  unfold dateSearch
  rw [List.any_eq_true]
  refine ⟨i, List.mem_range.mpr hi, ?_⟩
  unfold dateMatchAt
  rw [hb, hm]
  rfl

/-- Claim C10 witness: in "the mayor spoke" the month name "may" starts the
word "mayor" at position 4, and `has_date` is reported. -/
theorem C10_month_prefix_sets_has_date_witness :
    (boundaryAt (lowerChars "the mayor spoke") 4 = true ∧
     monthAt (lowerChars "the mayor spoke") 4 = true) ∧
    (detect_content_indicators "the mayor spoke").has_date = true :=
  ⟨⟨by decide, by decide⟩,
   C10_month_prefix_sets_has_date "the mayor spoke" 4 (by decide) (by decide)⟩
